import Mathlib

/-!
Shallow embedding of the VolumeReplicationGroup (VRG) reconciler core of
`controllers/volumereplicationgroup_controller.go` (stolostron/ramen).

Pure control flow and data manipulation are translated directly from the Go
source.  Calls into external collaborators (the backend replication drivers,
the S3 object store, the Kubernetes API server) are modelled as explicit
oracle parameters collected in an `Env` record: each oracle field records the
outcome the collaborator reports during the one reconcile invocation being
modelled, which is exactly the information the Go control flow branches on.
Go slices become Lean lists, `nil` versus empty slices become `Option`,
Go loops become structural recursion appending per-element contributions in
the same order as the source.
-/

namespace Ramen

/-- Tri-state condition status (metav1.ConditionTrue / False / Unknown). -/
inductive CondStatus where
  | ctrue
  | cfalse
  | cunknown
deriving DecidableEq, Repr

/-- A status condition (metav1.Condition): type, status, reason, message and
the generation it was observed at.  `lastTransitionTime` is omitted: no code
under scrutiny branches on it. -/
structure Condition where
  condType : String
  status : CondStatus
  reason : String
  message : String
  observedGeneration : Nat
deriving DecidableEq, Repr

def VRGConditionTypeDataReady : String := "DataReady"

def VRGConditionTypeDataProtected : String := "DataProtected"

def VRGConditionTypeClusterDataProtected : String := "ClusterDataProtected"

def VRGConditionTypeClusterDataReady : String := "ClusterDataReady"

def VRGConditionReasonError : String := "Error"

/-- Replication state strings (ramendrv1alpha1.Primary / Secondary). -/
def ReplicationPrimary : String := "primary"

def ReplicationSecondary : String := "secondary"

def PrimaryState : String := "Primary"

def SecondaryState : String := "Secondary"

def UnknownState : String := "Unknown"

/-- A protected-PVC record in VRG status (ramendrv1alpha1.ProtectedPVC):
only the fields the embedded code reads. -/
structure ProtectedPVC where
  name : String
  protectedByVolSync : Bool
deriving DecidableEq, Repr

/-- A PersistentVolumeClaim: only the fields the embedded code reads. -/
structure PVC where
  name : String
  storageClassName : String
deriving DecidableEq, Repr

/-- A StorageClass: name and provisioner. -/
structure StorageClass where
  name : String
  provisioner : String
deriving DecidableEq, Repr

/-- A VolumeReplicationClass: the provisioner in its spec. -/
structure ReplicationClass where
  provisioner : String
deriving DecidableEq, Repr

/-- VRG status.  `protectedPVCs = none` models a Go nil slice, `some l` a
non-nil slice (the distinction drives `initializeStatus`).  Time stamps are
abstract `Nat` tick values. -/
structure VRGStatus where
  observedGeneration : Nat
  state : String
  protectedPVCs : Option (List ProtectedPVC)
  conditions : List Condition
  lastUpdateTime : Nat
deriving DecidableEq, Repr

/-- The VRG object: the metadata and spec fields the embedded code reads.
`deletionTimestampSet` models `!GetDeletionTimestamp().IsZero()`;
`syncModeEnabled` models `Spec.Sync.Mode == SyncModeEnabled` and likewise
for async; `volSyncDisabled` models `Spec.VolSync.Disabled`. -/
structure VRG where
  generation : Nat
  deletionTimestampSet : Bool
  finalizers : List String
  replicationState : String
  syncModeEnabled : Bool
  asyncModeEnabled : Bool
  volSyncDisabled : Bool
  status : VRGStatus
deriving DecidableEq, Repr

def vrgFinalizerName : String := "volumereplicationgroups.ramendr.openshift.io/vrg-protection"

def eventReasonValidationFailed : String := "FailedValidation"

def eventReasonDeleteSuccess : String := "DeleteSuccess"

def eventReasonPrimarySuccess : String := "PrimarySuccess"

def eventReasonSecondarySuccess : String := "SecondarySuccess"

/-- Direct translation of `containsString` (line 1031). -/
def containsString (values : List String) (s : String) : Bool :=
  match values with
  | [] => false
  | item :: rest => if item = s then true else containsString rest s

/-- Direct translation of `removeString` (line 1041). -/
def removeString (values : List String) (s : String) : List String :=
  match values with
  | [] => []
  | item :: rest => if item = s then removeString rest s else item :: removeString rest s

/-- Modelled from the spec: `findCondition` is defined outside the given
source file; per the data model, `conditions` is a set unique by type, and
`findCondition` returns the entry of the requested type if present. -/
def findCondition (conditions : List Condition) (condType : String) : Option Condition :=
  conditions.find? (fun c => c.condType = condType)

/-- Modelled from the spec: `setStatusCondition` is defined outside the given
source file; per the data model conditions have upsert-by-type semantics
(replace the entry of the same type, else append). -/
def setStatusCondition (conditions : List Condition) (c : Condition) : List Condition :=
  if conditions.any (fun x => x.condType = c.condType) then
    conditions.map (fun x => if x.condType = c.condType then c else x)
  else
    conditions ++ [c]

/-- Modelled from the spec: `setVRGDataErrorCondition` is defined outside the
given source file; it records a terminal data error by upserting the
`DataReady` condition as False with the `Error` reason at the current
generation (spec section 7: terminal condition; section 4.6 reads the
`DataReady` reason to detect errors). -/
def setVRGDataErrorCondition (conditions : List Condition) (generation : Nat)
    (msg : String) : List Condition :=
  setStatusCondition conditions
    { condType := VRGConditionTypeDataReady, status := CondStatus.cfalse,
      reason := VRGConditionReasonError, message := msg, observedGeneration := generation }

/-- Modelled from the spec: `setVRGClusterDataErrorCondition` is defined
outside the given source file; it upserts the `ClusterDataReady` condition as
False with the `Error` reason at the current generation (spec section 4.4
step 2: a restore failure sets a cluster-data error condition). -/
def setVRGClusterDataErrorCondition (conditions : List Condition) (generation : Nat)
    (msg : String) : List Condition :=
  setStatusCondition conditions
    { condType := VRGConditionTypeClusterDataReady, status := CondStatus.cfalse,
      reason := VRGConditionReasonError, message := msg, observedGeneration := generation }

/-- Modelled from the spec: `setVRGClusterDataReadyCondition` is defined
outside the given source file; it upserts the `ClusterDataReady` condition as
True at the current generation (spec section 4.4 step 2: certify readiness
only after both restores succeed). -/
def setVRGClusterDataReadyCondition (conditions : List Condition) (generation : Nat)
    (msg : String) : List Condition :=
  setStatusCondition conditions
    { condType := VRGConditionTypeClusterDataReady, status := CondStatus.ctrue,
      reason := "Restored", message := msg, observedGeneration := generation }

/-- Modelled from the spec: `setVRGInitialCondition` is defined outside the
given source file; on first sight of the resource it sets the summary
conditions to Unknown at the current generation (spec section 4.2 and the
source comment at line 508). -/
def setVRGInitialCondition (conditions : List Condition) (generation : Nat)
    (msg : String) : List Condition :=
  let mk : String → Condition := fun t =>
    { condType := t, status := CondStatus.cunknown, reason := "Initializing",
      message := msg, observedGeneration := generation }
  setStatusCondition
    (setStatusCondition
      (setStatusCondition
        (setStatusCondition conditions (mk VRGConditionTypeDataReady))
        (mk VRGConditionTypeDataProtected))
      (mk VRGConditionTypeClusterDataProtected))
    (mk VRGConditionTypeClusterDataReady)

/-- Translation of `initializeStatus` (line 503): if `protectedPVCs` is nil,
replace it by an empty list and set the initial conditions. -/
def initializeStatus (vrg : VRG) : VRG :=
  match vrg.status.protectedPVCs with
  | none =>
      { vrg with status :=
          { vrg.status with
              protectedPVCs := some [],
              conditions := setVRGInitialCondition vrg.status.conditions vrg.generation
                "Initializing VolumeReplicationGroup" } }
  | some _ => vrg

/-- Translation of `validateVRGState` (line 429): the replication state must
be exactly Primary or Secondary. -/
def validateVRGState (vrg : VRG) : Option String :=
  if vrg.replicationState ≠ ReplicationPrimary ∧ vrg.replicationState ≠ ReplicationSecondary then
    some "invalid or unknown replication state detected"
  else
    none

/-- Translation of `validateVRGMode` (line 449): at least one of sync or
async mode must be enabled. -/
def validateVRGMode (vrg : VRG) : Option String :=
  let async := vrg.asyncModeEnabled
  let sync := vrg.syncModeEnabled
  if !sync && !async then some "neither of sync or async mode is enabled" else none

/-- Per-PVC contribution of the inner loop of `separatePVCsUsingVRGStatus`
(lines 618-626): for each protected-PVC record with a matching name, the PVC
is appended to the VolSync list when `protectedByVolSync` is set, else to the
VolRep list.  Returned as (volRep contribution, volSync contribution). -/
def routeOneUsingVRGStatus (protectedPVCs : List ProtectedPVC) (pvc : PVC) :
    List PVC × List PVC :=
  match protectedPVCs with
  | [] => ([], [])
  | pp :: rest =>
      let acc := routeOneUsingVRGStatus rest pvc
      if pvc.name = pp.name then
        if pp.protectedByVolSync then (acc.1, pvc :: acc.2) else (pvc :: acc.1, acc.2)
      else acc

/-- Translation of `separatePVCsUsingVRGStatus` (line 614): the outer loop
over the listed PVCs, concatenating the inner-loop contributions in list
order into (volRepPVCs, volSyncPVCs). -/
def separatePVCsUsingVRGStatus (protectedPVCs : List ProtectedPVC) :
    List PVC → List PVC × List PVC
  | [] => ([], [])
  | pvc :: rest =>
      let head := routeOneUsingVRGStatus protectedPVCs pvc
      let tail := separatePVCsUsingVRGStatus protectedPVCs rest
      (head.1 ++ tail.1, head.2 ++ tail.2)

/-- Lookup of a StorageClass by name, modelling `reconciler.Get` against the
set of StorageClasses present in the cluster (none = the Get fails). -/
def lookupStorageClass (storageClasses : List StorageClass) (name : String) :
    Option StorageClass :=
  storageClasses.find? (fun sc => sc.name = name)

/-- Translation of `separatePVCsUsingStorageClassProvisioner` (line 630):
resolve each PVC's StorageClass (a failed lookup aborts the whole
classification with an error); route the PVC to VolRep if some replication
class has the same provisioner (the loop with `break` is `List.any`),
else to VolSync. -/
def separatePVCsUsingStorageClassProvisioner (storageClasses : List StorageClass)
    (replClassList : List ReplicationClass) :
    List PVC → Except String (List PVC × List PVC)
  | [] => Except.ok ([], [])
  | pvc :: rest =>
      match lookupStorageClass storageClasses pvc.storageClassName with
      | none => Except.error ("failed to get the storageclass with name " ++ pvc.storageClassName)
      | some storageClass =>
          match separatePVCsUsingStorageClassProvisioner storageClasses replClassList rest with
          | Except.error e => Except.error e
          | Except.ok acc =>
              if replClassList.any (fun rc => storageClass.provisioner = rc.provisioner) then
                Except.ok (pvc :: acc.1, acc.2)
              else
                Except.ok (acc.1, pvc :: acc.2)

/-- Translation of `updatePVCListForAll` (line 545).  The PVC listing and the
replication-class listing are API-server oracles passed as `Except` results;
the body then follows the source: deletion path replays `protectedPVCs`;
zero replication classes route everything to VolSync; otherwise route by
StorageClass provisioner.  Returns (volRepPVCs, volSyncPVCs). -/
def updatePVCListForAll (vrg : VRG)
    (replClassListing : Except String (List ReplicationClass))
    (storageClasses : List StorageClass)
    (pvcListing : Except String (List PVC)) :
    Except String (List PVC × List PVC) :=
  match pvcListing with
  | Except.error e => Except.error ("failed to list PersistentVolumeClaims, " ++ e)
  | Except.ok pvcList =>
      match replClassListing with
      | Except.error _ => Except.error "failed to get VolumeReplicationClass list"
      | Except.ok replClassList =>
          if vrg.deletionTimestampSet then
            Except.ok (separatePVCsUsingVRGStatus (vrg.status.protectedPVCs.getD []) pvcList)
          else if replClassList.length = 0 then
            Except.ok ([], pvcList)
          else
            separatePVCsUsingStorageClassProvisioner storageClasses replClassList pvcList

/-- Translation of `updatePVCList` (line 515): when `Spec.VolSync.Disabled`
is set, the listed PVCs all become VolRep PVCs and neither replication
classes nor storage classes are consulted; otherwise defer to
`updatePVCListForAll`. -/
def updatePVCList (vrg : VRG)
    (replClassListing : Except String (List ReplicationClass))
    (storageClasses : List StorageClass)
    (pvcListing : Except String (List PVC)) :
    Except String (List PVC × List PVC) :=
  if vrg.volSyncDisabled then
    match pvcListing with
    | Except.error e => Except.error ("failed to list PersistentVolumeClaims, " ++ e)
    | Except.ok pvcList => Except.ok (pvcList, [])
  else
    updatePVCListForAll vrg replClassListing storageClasses pvcListing

/-- Translation of the sticky-condition guard in `restorePVs` (lines
474-476): the `ClusterDataReady` condition exists, is True, and its observed
generation equals the VRG's current generation. -/
def clusterDataReadyAtCurrentGeneration (vrg : VRG) : Bool :=
  match findCondition vrg.status.conditions VRGConditionTypeClusterDataReady with
  | some c => c.status = CondStatus.ctrue ∧ c.observedGeneration = vrg.generation
  | none => false

/-- Translation of `restorePVs` (line 473).  The outcomes of the two restore
collaborators (`restorePVsForVolSync`, `restorePVsForVolRep`, both external
to this file) are the `volSyncRestoreErr`/`volRepRestoreErr` oracles.  When
the sticky guard holds the function returns success immediately; otherwise
VolSync restore runs first, then VolRep restore, and only after both succeed
is `ClusterDataReady` set to True. -/
def restorePVs (vrg : VRG) (volSyncRestoreErr volRepRestoreErr : Option String) :
    Except String VRG :=
  if clusterDataReadyAtCurrentGeneration vrg then
    Except.ok vrg
  else
    match volSyncRestoreErr with
    | some e => Except.error ("failed to restore PVs for VolSync (" ++ e ++ ")")
    | none =>
        match volRepRestoreErr with
        | some e => Except.error ("failed to restore PVs for VolRep (" ++ e ++ ")")
        | none =>
            let conds := setVRGClusterDataReadyCondition vrg.status.conditions vrg.generation
              "Restored PV cluster data"
            Except.ok { vrg with status := { vrg.status with conditions := conds } }

/-- Oracles describing the per-reconcile outcomes of the condition
aggregation collaborators (`aggregateVolSync*Condition` return an optional
condition; `aggregateVolRep*Condition` rewrite the condition list in place,
modelled as list transformers).  These six functions live outside the given
source file. -/
structure AggEnv where
  volSyncDataReadyCond : Option Condition
  volSyncDataProtectedCond : Option Condition
  volSyncClusterDataProtectedCond : Option Condition
  volRepDataReadyAgg : List Condition → List Condition
  volRepDataProtectedAgg : List Condition → List Condition
  volRepClusterDataProtectedAgg : List Condition → List Condition

/-- Translation of `updateVRGDataReadyCondition` (line 958): upsert the
VolSync aggregate when present; when the VolRep PVC list is non-empty the
VolRep aggregation then runs (and may overwrite). -/
def updateVRGDataReadyCondition (agg : AggEnv) (volRepPVCs : List PVC)
    (conditions : List Condition) : List Condition :=
  let conditions :=
    match agg.volSyncDataReadyCond with
    | some c => setStatusCondition conditions c
    | none => conditions
  if volRepPVCs.length ≠ 0 then agg.volRepDataReadyAgg conditions else conditions

/-- Translation of `updateVRGDataProtectedCondition` (line 970): the VolSync
aggregate is applied only when present and the VolRep list is empty; when the
VolRep list is non-empty the VolRep aggregation runs. -/
def updateVRGDataProtectedCondition (agg : AggEnv) (volRepPVCs : List PVC)
    (conditions : List Condition) : List Condition :=
  let conditions :=
    match agg.volSyncDataProtectedCond with
    | some c => if volRepPVCs.length = 0 then setStatusCondition conditions c else conditions
    | none => conditions
  if volRepPVCs.length ≠ 0 then agg.volRepDataProtectedAgg conditions else conditions

/-- Translation of `updateVRGClusterDataProtectedCondition` (line 999). -/
def updateVRGClusterDataProtectedCondition (agg : AggEnv) (volRepPVCs : List PVC)
    (conditions : List Condition) : List Condition :=
  let conditions :=
    match agg.volSyncClusterDataProtectedCond with
    | some c => setStatusCondition conditions c
    | none => conditions
  if volRepPVCs.length ≠ 0 then agg.volRepClusterDataProtectedAgg conditions else conditions

/-- Translation of `updateVRGConditions` (line 952): the three summary
updates in source order. -/
def updateVRGConditions (agg : AggEnv) (volRepPVCs : List PVC)
    (conditions : List Condition) : List Condition :=
  updateVRGClusterDataProtectedCondition agg volRepPVCs
    (updateVRGDataProtectedCondition agg volRepPVCs
      (updateVRGDataReadyCondition agg volRepPVCs conditions))

/-- Translation of `getStatusStateFromSpecState` (line 935). -/
def getStatusStateFromSpecState (state : String) : String :=
  if state = ReplicationPrimary then PrimaryState
  else if state = ReplicationSecondary then SecondaryState
  else UnknownState

/-- Translation of `updateStatusState` (line 897): mirror the spec state into
`status.state` once `DataReady` is True; an `Error` reason forces Unknown; an
unrecognised spec state forces Unknown; otherwise the state is left alone. -/
def updateStatusState (replicationState : String) (st : VRGStatus) : VRGStatus :=
  match findCondition st.conditions VRGConditionTypeDataReady with
  | none => st
  | some dataReadyCondition =>
      let statusState := getStatusStateFromSpecState replicationState
      if dataReadyCondition.status = CondStatus.ctrue then
        { st with state := statusState }
      else if dataReadyCondition.reason = VRGConditionReasonError then
        { st with state := UnknownState }
      else if statusState = UnknownState then
        { st with state := statusState }
      else st

/-- Translation of `areRequiredConditionsReady` (line 1010): `DataReady`,
`DataProtected` and `ClusterDataProtected` must each be present with status
True.  The three early-return checks of the source are the three conjuncts;
note the source consults only `Status`, not `ObservedGeneration`. -/
def areRequiredConditionsReady (conditions : List Condition) : Bool :=
  (match findCondition conditions VRGConditionTypeDataReady with
   | none => false
   | some c => c.status = CondStatus.ctrue) &&
  (match findCondition conditions VRGConditionTypeDataProtected with
   | none => false
   | some c => c.status = CondStatus.ctrue) &&
  (match findCondition conditions VRGConditionTypeClusterDataProtected with
   | none => false
   | some c => c.status = CondStatus.ctrue)

/-- Lines 870-876 of `updateVRGStatus`: the desired status computed before
the deep-equality comparison — conditions updated when requested, then
`updateStatusState`, then `ObservedGeneration` stamped. -/
def computeDesiredStatus (updateConditions : Bool) (agg : AggEnv)
    (volRepPVCs : List PVC) (vrg : VRG) : VRGStatus :=
  let conds :=
    if updateConditions then updateVRGConditions agg volRepPVCs vrg.status.conditions
    else vrg.status.conditions
  let st := updateStatusState vrg.replicationState { vrg.status with conditions := conds }
  { st with observedGeneration := vrg.generation }

/-- Result of `updateVRGStatus`: the requeue boolean and error it returns,
the instance it leaves behind, and whether the status-subresource write was
attempted (for the write-skip behaviour). -/
structure StatusUpdateResult where
  requeueRequested : Bool
  err : Option String
  vrg : VRG
  statusWriteAttempted : Bool

/-- Translation of `updateVRGStatus` (line 867).  `statusUpdateErr` is the
API-server oracle for the status-subresource write; `now` the clock oracle
for `metav1.Now()`.  If the computed status deep-equals the saved snapshot
the write is skipped; otherwise `LastUpdateTime` is stamped and the write
attempted, a failure returning (true, error).  Both exits return
`!areRequiredConditionsReady`. -/
def updateVRGStatus (updateConditions : Bool) (agg : AggEnv) (volRepPVCs : List PVC)
    (now : Nat) (statusUpdateErr : Option String)
    (vrg : VRG) (savedInstanceStatus : VRGStatus) : StatusUpdateResult :=
  let desired := computeDesiredStatus updateConditions agg volRepPVCs vrg
  if desired ≠ savedInstanceStatus then
    let written := { desired with lastUpdateTime := now }
    match statusUpdateErr with
    | some _ =>
        { requeueRequested := true, err := some "failed to update VRG status",
          vrg := { vrg with status := written }, statusWriteAttempted := true }
    | none =>
        { requeueRequested := !areRequiredConditionsReady written.conditions, err := none,
          vrg := { vrg with status := written }, statusWriteAttempted := true }
  else
    { requeueRequested := !areRequiredConditionsReady desired.conditions, err := none,
      vrg := { vrg with status := desired }, statusWriteAttempted := false }

/-- A controller-runtime result: `requeue` models `Result.Requeue` and
`requeueAfterSeconds` models `Result.RequeueAfter` (0 = unset). -/
structure CtrlResult where
  requeue : Bool
  requeueAfterSeconds : Nat
deriving DecidableEq, Repr

/-- Oracles for every external collaborator consulted in one reconcile
invocation: API-server listings, the per-volume backend reconcilers, the S3
metadata store, the finalizer spec-updates, the status write and the clock.
Each field is the outcome that collaborator reports this invocation. -/
structure Env where
  agg : AggEnv
  now : Nat
  statusUpdateErr : Option String
  pvcListing : Except String (List PVC)
  replClassListing : Except String (List ReplicationClass)
  storageClasses : List StorageClass
  addFinalizerUpdateErr : Option String
  removeFinalizerUpdateErr : Option String
  restoreVolSyncErr : Option String
  restoreVolRepErr : Option String
  reconcileVolSyncAsPrimaryRequeue : Bool
  reconcileVolRepsAsPrimaryRequeue : Bool
  reconcileVolSyncAsSecondaryRequeue : Bool
  reconcileVolRepsAsSecondaryRequeue : Bool
  reconcileVRsForDeletionRequeue : Bool
  deleteClusterDataErr : Option String

/-- Output of one state-machine branch: the returned result, the instance as
left in memory, and the event reasons reported. -/
structure ActionOutput where
  result : CtrlResult
  vrg : VRG
  events : List String

/-- Translation of `deleteVRGHandleMode` (line 708): delegates to
`reconcileVRsForDeletion`, the backend deletion collaborator (external to
this file), whose requeue verdict is the oracle. -/
def deleteVRGHandleMode (env : Env) : Bool :=
  env.reconcileVRsForDeletionRequeue

/-- Translation of `removeFinalizer` (line 713): the finalizer is removed
from the in-memory instance, then the spec update is attempted; its oracle
failure is returned as the error. -/
def removeFinalizer (env : Env) (finalizer : String) (vrg : VRG) : VRG × Option String :=
  let vrg := { vrg with finalizers := removeString vrg.finalizers finalizer }
  match env.removeFinalizerUpdateErr with
  | some _ => (vrg, some "failed to remove finalizer from VolumeReplicationGroup resource")
  | none => (vrg, none)

/-- Translation of `processForDeletion` (line 665): no-op when the protection
finalizer is absent; requeue if the backend deletion reconciliation fails;
when Primary, requeue if the S3 cluster-data deletion fails; only then remove
the finalizer (requeue on update failure) and report the success event. -/
def processForDeletion (env : Env) (vrg : VRG) : ActionOutput :=
  if !containsString vrg.finalizers vrgFinalizerName then
    { result := { requeue := false, requeueAfterSeconds := 0 }, vrg := vrg, events := [] }
  else if deleteVRGHandleMode env then
    { result := { requeue := true, requeueAfterSeconds := 0 }, vrg := vrg, events := [] }
  else if vrg.replicationState = ReplicationPrimary ∧ env.deleteClusterDataErr.isSome then
    { result := { requeue := true, requeueAfterSeconds := 0 }, vrg := vrg, events := [] }
  else
    let rf := removeFinalizer env vrgFinalizerName vrg
    match rf.2 with
    | some _ =>
        { result := { requeue := true, requeueAfterSeconds := 0 }, vrg := rf.1, events := [] }
    | none =>
        { result := { requeue := false, requeueAfterSeconds := 0 }, vrg := rf.1,
          events := [eventReasonDeleteSuccess] }

/-- Modelled from the spec: `addFinalizer` is defined outside the given
source file; per spec section 4.4 step 1 it ensures the VRG-protection
finalizer is present, adding it and persisting via a spec update (the
update outcome is the oracle) when missing. -/
def addFinalizer (env : Env) (finalizer : String) (vrg : VRG) : VRG × Option String :=
  if containsString vrg.finalizers finalizer then (vrg, none)
  else
    match env.addFinalizerUpdateErr with
    | some e => (vrg, some e)
    | none => ({ vrg with finalizers := vrg.finalizers ++ [finalizer] }, none)

/-- Translation of `reconcileAsPrimary` (line 785): VolSync reconciliation
runs only for a non-empty VolSync list; VolRep reconciliation always runs;
requeue if either asks for it. -/
def reconcileAsPrimary (env : Env) (volSyncPVCs : List PVC) : Bool :=
  let requeueForVolSync :=
    if volSyncPVCs.length ≠ 0 then env.reconcileVolSyncAsPrimaryRequeue else false
  let requeueForVolRep := env.reconcileVolRepsAsPrimaryRequeue
  requeueForVolSync || requeueForVolRep

/-- Translation of `reconcileAsSecondary` (line 842): VolSync first with a
short-circuit, then VolRep. -/
def reconcileAsSecondary (env : Env) : Bool :=
  if env.reconcileVolSyncAsSecondaryRequeue then true
  else env.reconcileVolRepsAsSecondaryRequeue

/-- Translation of `handleVRGMode` (line 855). -/
def handleVRGMode (env : Env) (volSyncPVCs : List PVC) (state : String) : Bool :=
  let result := if state = ReplicationPrimary then reconcileAsPrimary env volSyncPVCs else false
  if state = ReplicationSecondary then reconcileAsSecondary env else result

/-- Translation of `processAsPrimary` (line 726): add the finalizer (failure
sets a data error condition, writes status, immediate requeue); restore PVs
(failure sets a cluster data error condition, writes status, immediate
requeue); reconcile both backends; report success when nothing requeued;
write status; requeue after one second if anything asked for it. -/
def processAsPrimary (env : Env) (vrg : VRG) (savedInstanceStatus : VRGStatus)
    (volRepPVCs volSyncPVCs : List PVC) : ActionOutput :=
  let af := addFinalizer env vrgFinalizerName vrg
  match af.2 with
  | some _ =>
      let conds := setVRGDataErrorCondition af.1.status.conditions af.1.generation
        "Failed to add finalizer to VolumeReplicationGroup"
      let vrg := { af.1 with status := { af.1.status with conditions := conds } }
      let r := updateVRGStatus false env.agg volRepPVCs env.now env.statusUpdateErr vrg
        savedInstanceStatus
      { result := { requeue := true, requeueAfterSeconds := 0 }, vrg := r.vrg, events := [] }
  | none =>
      match restorePVs af.1 env.restoreVolSyncErr env.restoreVolRepErr with
      | Except.error e =>
          let conds := setVRGClusterDataErrorCondition af.1.status.conditions af.1.generation
            ("Failed to restore PVs (" ++ e ++ ")")
          let vrg := { af.1 with status := { af.1.status with conditions := conds } }
          let r := updateVRGStatus false env.agg volRepPVCs env.now env.statusUpdateErr vrg
            savedInstanceStatus
          { result := { requeue := true, requeueAfterSeconds := 0 }, vrg := r.vrg, events := [] }
      | Except.ok vrg =>
          let requeue := handleVRGMode env volSyncPVCs ReplicationPrimary
          let events := if !requeue then [eventReasonPrimarySuccess] else []
          let r := updateVRGStatus true env.agg volRepPVCs env.now env.statusUpdateErr vrg
            savedInstanceStatus
          let requeue := if r.err.isSome then true else requeue
          if requeue || r.requeueRequested then
            { result := { requeue := false, requeueAfterSeconds := 1 }, vrg := r.vrg,
              events := events }
          else
            { result := { requeue := false, requeueAfterSeconds := 0 }, vrg := r.vrg,
              events := events }

/-- Translation of `processAsSecondary` (line 797): like Primary but with no
restore step. -/
def processAsSecondary (env : Env) (vrg : VRG) (savedInstanceStatus : VRGStatus)
    (volRepPVCs volSyncPVCs : List PVC) : ActionOutput :=
  let af := addFinalizer env vrgFinalizerName vrg
  match af.2 with
  | some _ =>
      let conds := setVRGDataErrorCondition af.1.status.conditions af.1.generation
        "Failed to add finalizer to VolumeReplicationGroup"
      let vrg := { af.1 with status := { af.1.status with conditions := conds } }
      let r := updateVRGStatus false env.agg volRepPVCs env.now env.statusUpdateErr vrg
        savedInstanceStatus
      { result := { requeue := true, requeueAfterSeconds := 0 }, vrg := r.vrg, events := [] }
  | none =>
      let requeue := handleVRGMode env volSyncPVCs ReplicationSecondary
      let events := if !requeue then [eventReasonSecondarySuccess] else []
      let r := updateVRGStatus true env.agg volRepPVCs env.now env.statusUpdateErr af.1
        savedInstanceStatus
      let requeue := if r.err.isSome then true else requeue
      if requeue || r.requeueRequested then
        { result := { requeue := false, requeueAfterSeconds := 1 }, vrg := r.vrg,
          events := events }
      else
        { result := { requeue := false, requeueAfterSeconds := 0 }, vrg := r.vrg,
          events := events }

/-- Which branch a `processVRG` invocation took. -/
inductive ProcPath where
  | invalidState
  | invalidMode
  | pvcListFailed
  | deletion
  | primary
  | secondary
deriving DecidableEq, Repr

/-- Output of `processVRG`: result, instance, branch taken, events. -/
structure ProcOutput where
  result : CtrlResult
  vrg : VRG
  path : ProcPath
  events : List String

/-- Translation of `processVRGActions` (line 414): deletion check first,
then Primary, default Secondary. -/
def processVRGActions (env : Env) (vrg : VRG) (savedInstanceStatus : VRGStatus)
    (volRepPVCs volSyncPVCs : List PVC) : ProcOutput :=
  if vrg.deletionTimestampSet then
    let a := processForDeletion env vrg
    { result := a.result, vrg := a.vrg, path := ProcPath.deletion, events := a.events }
  else if vrg.replicationState = ReplicationPrimary then
    let a := processAsPrimary env vrg savedInstanceStatus volRepPVCs volSyncPVCs
    { result := a.result, vrg := a.vrg, path := ProcPath.primary, events := a.events }
  else
    let a := processAsSecondary env vrg savedInstanceStatus volRepPVCs volSyncPVCs
    { result := a.result, vrg := a.vrg, path := ProcPath.secondary, events := a.events }

/-- The terminal validation branch repeated at lines 357-373 and 377-393 of
`processVRG`: record the validation-failure warning event, set the data error
condition, write status with `updateVRGStatus(false)` discarding its requeue
boolean, and return `Result{Requeue: true}` exactly when that write returned
an error, else the empty result (`requeue = err.isSome`). -/
def terminalValidationPath (env : Env) (vrg : VRG) (savedInstanceStatus : VRGStatus)
    (path : ProcPath) (msg : String) : ProcOutput :=
  let conds := setVRGDataErrorCondition vrg.status.conditions vrg.generation msg
  let vrg2 := { vrg with status := { vrg.status with conditions := conds } }
  let r := updateVRGStatus false env.agg [] env.now env.statusUpdateErr vrg2
    savedInstanceStatus
  { result := { requeue := r.err.isSome, requeueAfterSeconds := 0 },
    vrg := r.vrg, path := path, events := [eventReasonValidationFailed] }

/-- Translation of `processVRG` (line 354): initialize status; the two
validation gates each record a warning event, set a data error condition and
write status, returning an empty result when the write succeeds and an
immediate requeue when it fails; a PVC listing failure likewise reports,
writes status and always requeues; otherwise dispatch to the state machine
with the classified lists. -/
def processVRG (env : Env) (vrg : VRG) (savedInstanceStatus : VRGStatus) : ProcOutput :=
  let vrg := initializeStatus vrg
  match validateVRGState vrg with
  | some _ =>
      terminalValidationPath env vrg savedInstanceStatus ProcPath.invalidState
        "VolumeReplicationGroup state is invalid"
  | none =>
  match validateVRGMode vrg with
  | some _ =>
      terminalValidationPath env vrg savedInstanceStatus ProcPath.invalidMode
        "VolumeReplicationGroup mode is invalid"
  | none =>
  match updatePVCList vrg env.replClassListing env.storageClasses env.pvcListing with
  | Except.error _ =>
      let conds := setVRGDataErrorCondition vrg.status.conditions vrg.generation
        "Failed to get list of pvcs"
      let vrg := { vrg with status := { vrg.status with conditions := conds } }
      let r := updateVRGStatus false env.agg [] env.now env.statusUpdateErr vrg
        savedInstanceStatus
      { result := { requeue := true, requeueAfterSeconds := 0 }, vrg := r.vrg,
        path := ProcPath.pvcListFailed, events := [eventReasonValidationFailed] }
  | Except.ok pvcLists =>
      processVRGActions env vrg savedInstanceStatus pvcLists.1 pvcLists.2

/-! Sample concrete objects used by witnesses and counterexamples. -/

/-- Trivial aggregation oracles: no VolSync aggregate, VolRep aggregation
leaves the condition list alone. -/
def aggNone : AggEnv :=
  { volSyncDataReadyCond := none, volSyncDataProtectedCond := none,
    volSyncClusterDataProtectedCond := none,
    volRepDataReadyAgg := fun c => c, volRepDataProtectedAgg := fun c => c,
    volRepClusterDataProtectedAgg := fun c => c }

/-- A status with empty (non-nil) protected list and no conditions. -/
def baseStatus : VRGStatus :=
  { observedGeneration := 0, state := UnknownState, protectedPVCs := some [],
    conditions := [], lastUpdateTime := 0 }

/-- A healthy Primary VRG at generation 1 with the protection finalizer. -/
def baseVRG : VRG :=
  { generation := 1, deletionTimestampSet := false, finalizers := [vrgFinalizerName],
    replicationState := ReplicationPrimary, syncModeEnabled := false,
    asyncModeEnabled := true, volSyncDisabled := false, status := baseStatus }

/-- An environment in which every collaborator succeeds. -/
def baseEnv : Env :=
  { agg := aggNone, now := 0, statusUpdateErr := none,
    pvcListing := Except.ok [], replClassListing := Except.ok [], storageClasses := [],
    addFinalizerUpdateErr := none, removeFinalizerUpdateErr := none,
    restoreVolSyncErr := none, restoreVolRepErr := none,
    reconcileVolSyncAsPrimaryRequeue := false, reconcileVolRepsAsPrimaryRequeue := false,
    reconcileVolSyncAsSecondaryRequeue := false, reconcileVolRepsAsSecondaryRequeue := false,
    reconcileVRsForDeletionRequeue := false, deleteClusterDataErr := none }

def pvcA : PVC := { name := "A", storageClassName := "sc1" }

def pvcB : PVC := { name := "B", storageClassName := "sc1" }

def pvcC : PVC := { name := "C", storageClassName := "sc1" }

/-! Helper lemmas. -/

theorem findCondition_setStatusCondition (conds : List Condition) (c : Condition) :
    findCondition (setStatusCondition conds c) c.condType = some c := by
  unfold setStatusCondition findCondition
  by_cases h : (conds.any (fun x => x.condType = c.condType)) = true
  · rw [if_pos h]
    induction conds with
    | nil => simp at h
    | cons x rest ih =>
        by_cases hx : x.condType = c.condType
        · simp [hx]
        · simp only [List.any_cons, decide_eq_true_eq, Bool.or_eq_true, hx, false_or] at h
          simp [hx, ih h]
  · rw [if_neg h]
    rw [List.find?_append]
    have hnone : conds.find? (fun x => decide (x.condType = c.condType)) = none := by
      rw [List.find?_eq_none]
      intro x hx
      simp only [List.any_eq_true, decide_eq_true_eq, not_exists, not_and] at h
      simp [h x hx]
    simp [hnone]

theorem updateStatusState_conditions (rs : String) (st : VRGStatus) :
    (updateStatusState rs st).conditions = st.conditions := by
  unfold updateStatusState
  cases findCondition st.conditions VRGConditionTypeDataReady with
  | none => rfl
  | some dr =>
      dsimp only
      split_ifs <;> rfl

theorem initializeStatus_fields (vrg : VRG) :
    (initializeStatus vrg).generation = vrg.generation ∧
    (initializeStatus vrg).deletionTimestampSet = vrg.deletionTimestampSet ∧
    (initializeStatus vrg).finalizers = vrg.finalizers ∧
    (initializeStatus vrg).replicationState = vrg.replicationState ∧
    (initializeStatus vrg).syncModeEnabled = vrg.syncModeEnabled ∧
    (initializeStatus vrg).asyncModeEnabled = vrg.asyncModeEnabled ∧
    (initializeStatus vrg).volSyncDisabled = vrg.volSyncDisabled := by
  unfold initializeStatus
  cases vrg.status.protectedPVCs <;> simp

theorem updateVRGStatus_vrg_conditions (u : Bool) (agg : AggEnv) (vrp : List PVC)
    (now : Nat) (e : Option String) (vrg : VRG) (saved : VRGStatus) :
    (updateVRGStatus u agg vrp now e vrg saved).vrg.status.conditions =
      (computeDesiredStatus u agg vrp vrg).conditions := by
  by_cases h : computeDesiredStatus u agg vrp vrg = saved
  · simp [updateVRGStatus, h]
  · cases e <;> simp [updateVRGStatus, h]

theorem updateVRGStatus_vrg_finalizers (u : Bool) (agg : AggEnv) (vrp : List PVC)
    (now : Nat) (e : Option String) (vrg : VRG) (saved : VRGStatus) :
    (updateVRGStatus u agg vrp now e vrg saved).vrg.finalizers = vrg.finalizers := by
  by_cases h : computeDesiredStatus u agg vrp vrg = saved
  · simp [updateVRGStatus, h]
  · cases e <;> simp [updateVRGStatus, h]

theorem updateVRGStatus_err_none (u : Bool) (agg : AggEnv) (vrp : List PVC)
    (now : Nat) (vrg : VRG) (saved : VRGStatus) :
    (updateVRGStatus u agg vrp now none vrg saved).err = none := by
  by_cases h : computeDesiredStatus u agg vrp vrg = saved
  · simp [updateVRGStatus, h]
  · simp [updateVRGStatus, h]

/-- The routing verdict the deletion-path classification gives a claim: the
first protected-PVC record with the claim's name, if any, compared against
the wanted `protectedByVolSync` value. -/
def pvcRecordFlag (prot : List ProtectedPVC) (q : PVC) (b : Bool) : Bool :=
  match prot.find? (fun pp => pp.name = q.name) with
  | some pp => pp.protectedByVolSync = b
  | none => false

theorem routeOneUsingVRGStatus_of_no_match (prot : List ProtectedPVC) (pvc : PVC)
    (h : ∀ pp ∈ prot, pp.name ≠ pvc.name) :
    routeOneUsingVRGStatus prot pvc = ([], []) := by
  induction prot with
  | nil => rfl
  | cons pp rest ih =>
      have hpp : pp.name ≠ pvc.name := h pp (by simp)
      have hn : ¬(pvc.name = pp.name) := fun hh => hpp hh.symm
      simp only [routeOneUsingVRGStatus, hn, if_false]
      exact ih (fun pp' hm => h pp' (by simp [hm]))

theorem routeOneUsingVRGStatus_eq_of_nodup (prot : List ProtectedPVC) (pvc : PVC)
    (h : (prot.map ProtectedPVC.name).Nodup) :
    routeOneUsingVRGStatus prot pvc =
      (if pvcRecordFlag prot pvc false then [pvc] else [],
       if pvcRecordFlag prot pvc true then [pvc] else []) := by
  induction prot with
  | nil => simp [routeOneUsingVRGStatus, pvcRecordFlag]
  | cons pp rest ih =>
      rw [List.map_cons, List.nodup_cons] at h
      by_cases hn : pvc.name = pp.name
      · have hrest : routeOneUsingVRGStatus rest pvc = ([], []) := by
          refine routeOneUsingVRGStatus_of_no_match rest pvc (fun pp' hm hh => ?_)
          exact h.1 (by rw [← hn, ← hh]; exact List.mem_map_of_mem ProtectedPVC.name hm)
        have hfind : List.find? (fun pp' => decide (pp'.name = pvc.name)) (pp :: rest) = some pp :=
          List.find?_cons_of_pos rest (by simp [hn.symm])
        cases hb : pp.protectedByVolSync <;>
          simp [routeOneUsingVRGStatus, hn, hrest, pvcRecordFlag, hfind, hb]
      · have hfind : List.find? (fun pp' => decide (pp'.name = pvc.name)) (pp :: rest) =
            List.find? (fun pp' => decide (pp'.name = pvc.name)) rest :=
          List.find?_cons_of_neg rest
            (by simp only [decide_eq_true_eq]; exact fun hh => hn hh.symm)
        simp only [routeOneUsingVRGStatus, hn, if_false, ih h.2, pvcRecordFlag, hfind]

theorem separatePVCsUsingVRGStatus_eq_filter (prot : List ProtectedPVC) (pvcs : List PVC)
    (h : (prot.map ProtectedPVC.name).Nodup) :
    separatePVCsUsingVRGStatus prot pvcs =
      (pvcs.filter (fun q => pvcRecordFlag prot q false),
       pvcs.filter (fun q => pvcRecordFlag prot q true)) := by
  induction pvcs with
  | nil => simp [separatePVCsUsingVRGStatus]
  | cons pvc rest ih =>
      simp only [separatePVCsUsingVRGStatus, ih, routeOneUsingVRGStatus_eq_of_nodup prot pvc h]
      cases hf : pvcRecordFlag prot pvc false <;> cases ht : pvcRecordFlag prot pvc true <;>
        simp [List.filter_cons, hf, ht]

theorem find?_protected_eq_of_nodup (prot : List ProtectedPVC) (pp : ProtectedPVC) (q : PVC)
    (h : (prot.map ProtectedPVC.name).Nodup) (hm : pp ∈ prot) (hname : pp.name = q.name) :
    prot.find? (fun r => r.name = q.name) = some pp := by
  induction prot with
  | nil => simp at hm
  | cons x rest ih =>
      rw [List.map_cons, List.nodup_cons] at h
      rcases List.mem_cons.mp hm with rfl | hmem
      · exact List.find?_cons_of_pos rest (by simp [hname])
      · have hx : ¬(x.name = q.name) := by
          intro hh
          exact h.1 (by rw [hh, ← hname]; exact List.mem_map_of_mem ProtectedPVC.name hmem)
        rw [List.find?_cons_of_neg rest (by simp [hx])]
        exact ih h.2 hmem

/-- The routing verdict of the provisioner-based classification: the claim's
StorageClass resolves and its provisioner equals some replication-class
provisioner. -/
def pvcProvisionerMatch (storageClasses : List StorageClass)
    (replClassList : List ReplicationClass) (q : PVC) : Bool :=
  match lookupStorageClass storageClasses q.storageClassName with
  | some sc => replClassList.any (fun rc => sc.provisioner = rc.provisioner)
  | none => false

theorem separatePVCsUsingStorageClassProvisioner_ok (storageClasses : List StorageClass)
    (replClassList : List ReplicationClass) (pvcs vr vs : List PVC)
    (h : separatePVCsUsingStorageClassProvisioner storageClasses replClassList pvcs =
      Except.ok (vr, vs)) :
    vr = pvcs.filter (fun q => pvcProvisionerMatch storageClasses replClassList q) ∧
    vs = pvcs.filter (fun q => !pvcProvisionerMatch storageClasses replClassList q) := by
  induction pvcs generalizing vr vs with
  | nil =>
      simp only [separatePVCsUsingStorageClassProvisioner, Except.ok.injEq] at h
      rcases h with ⟨rfl, rfl⟩
      simp
  | cons pvc rest ih =>
      simp only [separatePVCsUsingStorageClassProvisioner] at h
      cases hl : lookupStorageClass storageClasses pvc.storageClassName with
      | none => simp only [hl] at h; exact Except.noConfusion h
      | some sc =>
          simp only [hl] at h
          cases hr : separatePVCsUsingStorageClassProvisioner storageClasses replClassList rest with
          | error e => simp only [hr] at h; exact Except.noConfusion h
          | ok acc =>
              simp only [hr] at h
              obtain ⟨acc1, acc2⟩ := acc
              rcases ih acc1 acc2 hr with ⟨h1, h2⟩
              by_cases hm : (replClassList.any (fun rc => sc.provisioner = rc.provisioner)) = true
              · rw [if_pos hm] at h
                simp only [Except.ok.injEq, Prod.mk.injEq] at h
                rcases h with ⟨h3, h4⟩
                have hmatch : pvcProvisionerMatch storageClasses replClassList pvc = true := by
                  simp [pvcProvisionerMatch, hl, hm]
                constructor
                · rw [← h3, h1, List.filter_cons, hmatch]; simp
                · rw [← h4, h2, List.filter_cons, hmatch]; simp
              · rw [if_neg hm] at h
                simp only [Except.ok.injEq, Prod.mk.injEq] at h
                rcases h with ⟨h3, h4⟩
                have hmatch : pvcProvisionerMatch storageClasses replClassList pvc = false := by
                  simp only [pvcProvisionerMatch, hl]
                  exact Bool.not_eq_true _ |>.mp hm
                constructor
                · rw [← h3, h1, List.filter_cons, hmatch]; simp
                · rw [← h4, h2, List.filter_cons, hmatch]; simp

theorem pvcRecordFlag_not_both (prot : List ProtectedPVC) (q : PVC) :
    ¬(pvcRecordFlag prot q false = true ∧ pvcRecordFlag prot q true = true) := by
  rintro ⟨h1, h2⟩
  cases hfind : prot.find? (fun r => r.name = q.name) with
  | none => simp [pvcRecordFlag, hfind] at h1
  | some pp =>
      simp only [pvcRecordFlag, hfind, decide_eq_true_eq] at h1 h2
      rw [h1] at h2
      exact absurd h2 (by simp)

theorem count_filter_append_le {α : Type} [DecidableEq α] (l : List α) (f g : α → Bool)
    (hfg : ∀ a, ¬(f a = true ∧ g a = true)) (q : α) :
    ((l.filter f) ++ (l.filter g)).count q ≤ l.count q := by
  rw [List.count_append]
  by_cases hf : f q = true
  · have hg : ¬(g q = true) := fun hh => hfg q ⟨hf, hh⟩
    have h2 : (l.filter g).count q = 0 := by
      rw [List.count_eq_zero]
      intro hm
      exact hg (List.of_mem_filter hm)
    rw [h2, Nat.add_zero]
    exact (List.filter_sublist l).count_le q
  · have h1 : (l.filter f).count q = 0 := by
      rw [List.count_eq_zero]
      intro hm
      exact hf (List.of_mem_filter hm)
    rw [h1, Nat.zero_add]
    exact (List.filter_sublist l).count_le q

/-- A deleting Primary VRG whose protected-PVC record is
`[{A, volsync=false}, {B, volsync=true}]`. -/
def vrgDeletingAB : VRG :=
  { baseVRG with
      deletionTimestampSet := true
      status := { baseStatus with protectedPVCs := some [⟨"A", false⟩, ⟨"B", true⟩] } }

/-- A deleting Primary VRG with two protected-PVC records sharing the name A
but disagreeing on the owning backend. -/
def vrgDupProtected : VRG :=
  { baseVRG with
      deletionTimestampSet := true
      status := { baseStatus with protectedPVCs := some [⟨"A", false⟩, ⟨"A", true⟩] } }

theorem computeDesiredStatus_conditions_of_false (agg : AggEnv) (vrp : List PVC) (vrg : VRG) :
    (computeDesiredStatus false agg vrp vrg).conditions = vrg.status.conditions := by
  simp [computeDesiredStatus, updateStatusState_conditions]

theorem terminalValidationPath_spec (env : Env) (vrg : VRG) (saved : VRGStatus)
    (path : ProcPath) (msg : String) :
    (terminalValidationPath env vrg saved path msg).path = path ∧
    (terminalValidationPath env vrg saved path msg).events = [eventReasonValidationFailed] ∧
    (terminalValidationPath env vrg saved path msg).result.requeueAfterSeconds = 0 ∧
    (terminalValidationPath env vrg saved path msg).vrg.finalizers = vrg.finalizers ∧
    findCondition (terminalValidationPath env vrg saved path msg).vrg.status.conditions
        VRGConditionTypeDataReady =
      some { condType := VRGConditionTypeDataReady, status := CondStatus.cfalse,
             reason := VRGConditionReasonError, message := msg,
             observedGeneration := vrg.generation } ∧
    (env.statusUpdateErr = none →
      (terminalValidationPath env vrg saved path msg).result =
        { requeue := false, requeueAfterSeconds := 0 }) := by
  refine ⟨rfl, rfl, rfl, ?_, ?_, ?_⟩
  · simp only [terminalValidationPath]
    rw [updateVRGStatus_vrg_finalizers]
  · simp only [terminalValidationPath]
    rw [updateVRGStatus_vrg_conditions, computeDesiredStatus_conditions_of_false]
    exact findCondition_setStatusCondition _ _
  · intro he
    simp only [terminalValidationPath, he]
    rw [updateVRGStatus_err_none]
    rfl

/-! Claim theorems. -/

/-- C1: in `processForDeletion` the VRG-protection finalizer is removed only
after the backend deletion reconciliation succeeds and, for a Primary VRG,
the S3 cluster-metadata deletion succeeds; on any failure of those steps the
finalizer is still present afterwards and the result requests a requeue. -/
theorem claimC1_finalizer_removed_only_after_deletion_success (env : Env) (vrg : VRG)
    (hfin : containsString vrg.finalizers vrgFinalizerName = true) :
    ((deleteVRGHandleMode env = true ∨
        (vrg.replicationState = ReplicationPrimary ∧ env.deleteClusterDataErr.isSome = true)) →
      containsString (processForDeletion env vrg).vrg.finalizers vrgFinalizerName = true ∧
        (processForDeletion env vrg).result.requeue = true) ∧
    (containsString (processForDeletion env vrg).vrg.finalizers vrgFinalizerName = false →
      deleteVRGHandleMode env = false ∧
        (vrg.replicationState = ReplicationPrimary → env.deleteClusterDataErr = none)) := by
  by_cases h1 : deleteVRGHandleMode env = true
  · constructor
    · intro _
      simp [processForDeletion, hfin, h1]
    · intro habs
      simp [processForDeletion, hfin, h1] at habs
  · by_cases h2 : vrg.replicationState = ReplicationPrimary ∧ env.deleteClusterDataErr.isSome = true
    · constructor
      · intro _
        simp [processForDeletion, hfin, h1, h2]
      · intro habs
        simp [processForDeletion, hfin, h1, h2] at habs
    · constructor
      · rintro (hp | hp)
        · exact absurd hp h1
        · exact absurd hp h2
      · intro _
        refine ⟨by simpa using h1, fun hp => ?_⟩
        cases he : env.deleteClusterDataErr with
        | none => rfl
        | some e => exact absurd ⟨hp, by simp [he]⟩ h2

/-- Witness for C1: in a concrete run in which the backend deletion
reconciliation reports failure, the finalizer is untouched and the result
requeues. -/
theorem claimC1_witness :
    containsString baseVRG.finalizers vrgFinalizerName = true ∧
    (containsString
        (processForDeletion { baseEnv with reconcileVRsForDeletionRequeue := true }
          baseVRG).vrg.finalizers vrgFinalizerName = true ∧
      (processForDeletion { baseEnv with reconcileVRsForDeletionRequeue := true }
          baseVRG).result.requeue = true) :=
  ⟨by decide,
    (claimC1_finalizer_removed_only_after_deletion_success
        { baseEnv with reconcileVRsForDeletionRequeue := true } baseVRG (by decide)).1
      (Or.inl (by decide))⟩

/-- C2: once the `ClusterDataReady` condition is True at the VRG's current
generation, `restorePVs` returns success immediately and its result does not
depend on either restore collaborator, even if both would now fail. -/
theorem claimC2_sticky_cluster_data_ready (vrg : VRG) (c : Condition)
    (hc : findCondition vrg.status.conditions VRGConditionTypeClusterDataReady = some c)
    (ht : c.status = CondStatus.ctrue)
    (hg : c.observedGeneration = vrg.generation) :
    ∀ volSyncRestoreErr volRepRestoreErr : Option String,
      restorePVs vrg volSyncRestoreErr volRepRestoreErr = Except.ok vrg := by
  intro e1 e2
  have hguard : clusterDataReadyAtCurrentGeneration vrg = true := by
    simp [clusterDataReadyAtCurrentGeneration, hc, ht, hg]
  simp [restorePVs, hguard]

def stickyCond : Condition :=
  { condType := VRGConditionTypeClusterDataReady, status := CondStatus.ctrue,
    reason := "Restored", message := "Restored PV cluster data", observedGeneration := 1 }

def vrgSticky : VRG :=
  { baseVRG with status := { baseStatus with conditions := [stickyCond] } }

/-- Witness for C2: a concrete VRG carrying a fresh True `ClusterDataReady`
condition returns success from `restorePVs` although both restore
collaborators would fail. -/
theorem claimC2_witness :
    findCondition vrgSticky.status.conditions VRGConditionTypeClusterDataReady =
        some stickyCond ∧
    restorePVs vrgSticky (some "VolSync restore fails") (some "VolRep restore fails") =
      Except.ok vrgSticky :=
  ⟨by decide,
    claimC2_sticky_cluster_data_ready vrgSticky stickyCond (by decide) (by decide) (by decide)
      (some "VolSync restore fails") (some "VolRep restore fails")⟩

/-- C3: for every non-deleting VRG and listed claim set, a successful
replication-class listing with zero classes routes every claim to the
VolSync list and none to the VolRep list. -/
theorem claimC3_zero_replication_classes_route_all_to_volsync (vrg : VRG)
    (storageClasses : List StorageClass) (pvcs : List PVC)
    (h : vrg.deletionTimestampSet = false) :
    updatePVCListForAll vrg (Except.ok []) storageClasses (Except.ok pvcs) =
      Except.ok ([], pvcs) := by
  simp [updatePVCListForAll, h]

/-- Witness for C3: a Primary non-deleting VRG with zero replication classes
and three matching claims classifies all three to VolSync and zero to
VolRep. -/
theorem claimC3_witness :
    baseVRG.deletionTimestampSet = false ∧
    updatePVCListForAll baseVRG (Except.ok []) [] (Except.ok [pvcA, pvcB, pvcC]) =
      Except.ok ([], [pvcA, pvcB, pvcC]) :=
  ⟨rfl,
    claimC3_zero_replication_classes_route_all_to_volsync baseVRG [] [pvcA, pvcB, pvcC] rfl⟩

/-- C9: with `Spec.VolSync.Disabled` set, classification places every listed
claim in the VolRep list and leaves the VolSync list empty, and its outcome
is independent of the replication-class and storage-class inputs. -/
theorem claimC9_volsync_disabled_routes_all_to_volrep (vrg : VRG)
    (h : vrg.volSyncDisabled = true) :
    (∀ (pvcs : List PVC) (replClassListing : Except String (List ReplicationClass))
        (storageClasses : List StorageClass),
      updatePVCList vrg replClassListing storageClasses (Except.ok pvcs) =
        Except.ok (pvcs, [])) ∧
    (∀ (r r' : Except String (List ReplicationClass)) (s s' : List StorageClass)
        (pvcListing : Except String (List PVC)),
      updatePVCList vrg r s pvcListing = updatePVCList vrg r' s' pvcListing) := by
  constructor
  · intro pvcs replClassListing storageClasses
    simp [updatePVCList, h]
  · intro r r' s s' pvcListing
    cases pvcListing <;> simp [updatePVCList, h]

/-- Witness for C9: with VolSync disabled, two listed claims both land in the
VolRep list even though the replication-class listing would have failed had
it been consulted. -/
theorem claimC9_witness :
    ({ baseVRG with volSyncDisabled := true } : VRG).volSyncDisabled = true ∧
    updatePVCList { baseVRG with volSyncDisabled := true }
        (Except.error "replication class listing unavailable") [] (Except.ok [pvcA, pvcB]) =
      Except.ok ([pvcA, pvcB], []) :=
  ⟨rfl,
    (claimC9_volsync_disabled_routes_all_to_volrep { baseVRG with volSyncDisabled := true }
        rfl).1 [pvcA, pvcB] (Except.error "replication class listing unavailable") []⟩

/-- Any protected-PVC record matching the claim by name and carrying
`protectedByVolSync = false` lands the claim in the VolRep contribution of
the inner routing loop. -/
theorem mem_routeOneUsingVRGStatus_fst_of (prot : List ProtectedPVC) (pvc : PVC)
    (pp : ProtectedPVC) (hpp : pp ∈ prot) (hname : pp.name = pvc.name)
    (hflag : pp.protectedByVolSync = false) :
    pvc ∈ (routeOneUsingVRGStatus prot pvc).1 := by
  induction prot with
  | nil => simp at hpp
  | cons x rest ih =>
      rcases List.mem_cons.mp hpp with rfl | hmem
      · simp [routeOneUsingVRGStatus, hname.symm, hflag]
      · by_cases hn : pvc.name = x.name
        · cases hb : x.protectedByVolSync <;>
            simp [routeOneUsingVRGStatus, hn, hb, ih hmem]
        · simp [routeOneUsingVRGStatus, hn, ih hmem]

theorem mem_routeOneUsingVRGStatus_snd_of (prot : List ProtectedPVC) (pvc : PVC)
    (pp : ProtectedPVC) (hpp : pp ∈ prot) (hname : pp.name = pvc.name)
    (hflag : pp.protectedByVolSync = true) :
    pvc ∈ (routeOneUsingVRGStatus prot pvc).2 := by
  induction prot with
  | nil => simp at hpp
  | cons x rest ih =>
      rcases List.mem_cons.mp hpp with rfl | hmem
      · simp [routeOneUsingVRGStatus, hname.symm, hflag]
      · by_cases hn : pvc.name = x.name
        · cases hb : x.protectedByVolSync <;>
            simp [routeOneUsingVRGStatus, hn, hb, ih hmem]
        · simp [routeOneUsingVRGStatus, hn, ih hmem]

/-- Conversely, a claim in the VolRep contribution of the inner routing loop
is the routed claim itself and owes its place to some false-flagged record of
its name. -/
theorem of_mem_routeOneUsingVRGStatus_fst (prot : List ProtectedPVC) (pvc q : PVC)
    (hm : q ∈ (routeOneUsingVRGStatus prot pvc).1) :
    q = pvc ∧ ∃ pp, pp ∈ prot ∧ pp.name = pvc.name ∧ pp.protectedByVolSync = false := by
  induction prot with
  | nil => simp [routeOneUsingVRGStatus] at hm
  | cons x rest ih =>
      by_cases hn : pvc.name = x.name
      · cases hb : x.protectedByVolSync
        · simp only [routeOneUsingVRGStatus, hn, if_true, hb] at hm
          rcases List.mem_cons.mp hm with rfl | hm2
          · exact ⟨rfl, x, List.mem_cons_self x rest, hn.symm, hb⟩
          · rcases ih hm2 with ⟨rfl, pp, hpp, hna, hfl⟩
            exact ⟨rfl, pp, List.mem_cons_of_mem x hpp, hna, hfl⟩
        · simp only [routeOneUsingVRGStatus, hn, if_true, hb] at hm
          rcases ih hm with ⟨rfl, pp, hpp, hna, hfl⟩
          exact ⟨rfl, pp, List.mem_cons_of_mem x hpp, hna, hfl⟩
      · simp only [routeOneUsingVRGStatus, hn, if_false] at hm
        rcases ih hm with ⟨rfl, pp, hpp, hna, hfl⟩
        exact ⟨rfl, pp, List.mem_cons_of_mem x hpp, hna, hfl⟩

theorem of_mem_routeOneUsingVRGStatus_snd (prot : List ProtectedPVC) (pvc q : PVC)
    (hm : q ∈ (routeOneUsingVRGStatus prot pvc).2) :
    q = pvc ∧ ∃ pp, pp ∈ prot ∧ pp.name = pvc.name ∧ pp.protectedByVolSync = true := by
  induction prot with
  | nil => simp [routeOneUsingVRGStatus] at hm
  | cons x rest ih =>
      by_cases hn : pvc.name = x.name
      · cases hb : x.protectedByVolSync
        · simp only [routeOneUsingVRGStatus, hn, if_true, hb] at hm
          rcases ih hm with ⟨rfl, pp, hpp, hna, hfl⟩
          exact ⟨rfl, pp, List.mem_cons_of_mem x hpp, hna, hfl⟩
        · simp only [routeOneUsingVRGStatus, hn, if_true, hb] at hm
          rcases List.mem_cons.mp hm with rfl | hm2
          · exact ⟨rfl, x, List.mem_cons_self x rest, hn.symm, hb⟩
          · rcases ih hm2 with ⟨rfl, pp, hpp, hna, hfl⟩
            exact ⟨rfl, pp, List.mem_cons_of_mem x hpp, hna, hfl⟩
      · simp only [routeOneUsingVRGStatus, hn, if_false] at hm
        rcases ih hm with ⟨rfl, pp, hpp, hna, hfl⟩
        exact ⟨rfl, pp, List.mem_cons_of_mem x hpp, hna, hfl⟩

theorem mem_separatePVCsUsingVRGStatus_fst_of (prot : List ProtectedPVC) (pvcs : List PVC)
    (pvc : PVC) (hq : pvc ∈ pvcs) (pp : ProtectedPVC) (hpp : pp ∈ prot)
    (hname : pp.name = pvc.name) (hflag : pp.protectedByVolSync = false) :
    pvc ∈ (separatePVCsUsingVRGStatus prot pvcs).1 := by
  induction pvcs with
  | nil => simp at hq
  | cons y rest ih =>
      simp only [separatePVCsUsingVRGStatus, List.mem_append]
      rcases List.mem_cons.mp hq with rfl | hmem
      · exact Or.inl (mem_routeOneUsingVRGStatus_fst_of prot pvc pp hpp hname hflag)
      · exact Or.inr (ih hmem)

theorem mem_separatePVCsUsingVRGStatus_snd_of (prot : List ProtectedPVC) (pvcs : List PVC)
    (pvc : PVC) (hq : pvc ∈ pvcs) (pp : ProtectedPVC) (hpp : pp ∈ prot)
    (hname : pp.name = pvc.name) (hflag : pp.protectedByVolSync = true) :
    pvc ∈ (separatePVCsUsingVRGStatus prot pvcs).2 := by
  induction pvcs with
  | nil => simp at hq
  | cons y rest ih =>
      simp only [separatePVCsUsingVRGStatus, List.mem_append]
      rcases List.mem_cons.mp hq with rfl | hmem
      · exact Or.inl (mem_routeOneUsingVRGStatus_snd_of prot pvc pp hpp hname hflag)
      · exact Or.inr (ih hmem)

theorem of_mem_separatePVCsUsingVRGStatus_fst (prot : List ProtectedPVC) (pvcs : List PVC)
    (q : PVC) (hm : q ∈ (separatePVCsUsingVRGStatus prot pvcs).1) :
    ∃ pp, pp ∈ prot ∧ pp.name = q.name ∧ pp.protectedByVolSync = false := by
  induction pvcs with
  | nil => simp [separatePVCsUsingVRGStatus] at hm
  | cons y rest ih =>
      simp only [separatePVCsUsingVRGStatus, List.mem_append] at hm
      rcases hm with hm | hm
      · rcases of_mem_routeOneUsingVRGStatus_fst prot y q hm with ⟨rfl, pp, hpp, hna, hfl⟩
        exact ⟨pp, hpp, hna, hfl⟩
      · exact ih hm

theorem of_mem_separatePVCsUsingVRGStatus_snd (prot : List ProtectedPVC) (pvcs : List PVC)
    (q : PVC) (hm : q ∈ (separatePVCsUsingVRGStatus prot pvcs).2) :
    ∃ pp, pp ∈ prot ∧ pp.name = q.name ∧ pp.protectedByVolSync = true := by
  induction pvcs with
  | nil => simp [separatePVCsUsingVRGStatus] at hm
  | cons y rest ih =>
      simp only [separatePVCsUsingVRGStatus, List.mem_append] at hm
      rcases hm with hm | hm
      · rcases of_mem_routeOneUsingVRGStatus_snd prot y q hm with ⟨rfl, pp, hpp, hna, hfl⟩
        exact ⟨pp, hpp, hna, hfl⟩
      · exact ih hm

/-- C5: on the deletion path, classification replays the protected-PVC
record: a listed claim goes to the VolSync list under every record of its
name whose `protectedByVolSync` flag is set and to the VolRep list under
every record whose flag is clear, and a listed claim with no record of its
name is excluded from both lists; in the concrete scenario
`protectedPVCs = [{A,false},{B,true}]` with claims `[A,B,C]`, VolRep gets
`[A]`, VolSync gets `[B]` and C is excluded. -/
theorem claimC5_deletion_classification_replays_protected_records (vrg : VRG)
    (rcs : List ReplicationClass) (scs : List StorageClass) (pvcs vr vs : List PVC)
    (hdel : vrg.deletionTimestampSet = true)
    (h : updatePVCListForAll vrg (Except.ok rcs) scs (Except.ok pvcs) = Except.ok (vr, vs)) :
    (∀ q ∈ pvcs, ∀ pp ∈ vrg.status.protectedPVCs.getD [], pp.name = q.name →
      (pp.protectedByVolSync = true → q ∈ vs) ∧
      (pp.protectedByVolSync = false → q ∈ vr)) ∧
    (∀ q ∈ pvcs, (∀ pp ∈ vrg.status.protectedPVCs.getD [], pp.name ≠ q.name) →
      q ∉ vr ∧ q ∉ vs) ∧
    separatePVCsUsingVRGStatus [⟨"A", false⟩, ⟨"B", true⟩] [pvcA, pvcB, pvcC] =
      ([pvcA], [pvcB]) := by
  simp only [updatePVCListForAll, hdel, if_true, Except.ok.injEq] at h
  have hvr : (separatePVCsUsingVRGStatus (vrg.status.protectedPVCs.getD []) pvcs).1 = vr := by
    rw [h]
  have hvs : (separatePVCsUsingVRGStatus (vrg.status.protectedPVCs.getD []) pvcs).2 = vs := by
    rw [h]
  refine ⟨?_, ?_, by decide⟩
  · intro q hq pp hpp hname
    constructor
    · intro hflag
      rw [← hvs]
      exact mem_separatePVCsUsingVRGStatus_snd_of _ pvcs q hq pp hpp hname hflag
    · intro hflag
      rw [← hvr]
      exact mem_separatePVCsUsingVRGStatus_fst_of _ pvcs q hq pp hpp hname hflag
  · intro q hq hnone
    constructor
    · rw [← hvr]
      intro hm
      rcases of_mem_separatePVCsUsingVRGStatus_fst _ pvcs q hm with ⟨pp, hpp, hna, _⟩
      exact hnone pp hpp hna
    · rw [← hvs]
      intro hm
      rcases of_mem_separatePVCsUsingVRGStatus_snd _ pvcs q hm with ⟨pp, hpp, hna, _⟩
      exact hnone pp hpp hna

/-- Witness for C5: in the concrete scenario of the claim, claim B is routed
to the VolSync list. -/
theorem claimC5_witness :
    vrgDeletingAB.deletionTimestampSet = true ∧ pvcB ∈ ([pvcB] : List PVC) :=
  ⟨rfl,
    ((claimC5_deletion_classification_replays_protected_records vrgDeletingAB [] []
          [pvcA, pvcB, pvcC] [pvcA] [pvcB] rfl rfl).1 pvcB (by decide)
        ⟨"B", true⟩ (by decide) rfl).1 rfl⟩

/-- C6 counterexample: with the deletion path replaying a protected-PVC
record that holds two entries named A with opposite flags, claim A is placed
in both output lists, refuting the invariant that every claim appears in at
most one of the two lists for every protectedPVCs record. -/
theorem claimC6_counterexample :
    updatePVCListForAll vrgDupProtected (Except.ok []) [] (Except.ok [pvcA]) =
      Except.ok ([pvcA], [pvcA]) ∧
    pvcA ∈ ([pvcA] : List PVC) ∧ pvcA ∈ ([pvcA] : List PVC) :=
  ⟨rfl, by decide, by decide⟩

/-- C6 (amended): provided the protected-PVC records carry pairwise-distinct
names, every claim appears in at most one of the two output lists, the
multiset union of the two lists is contained in the listed claims, and a
listed claim is excluded from both lists only on the deletion path when its
name appears in no protected-PVC record. -/
theorem claimC6_classification_invariants (vrg : VRG) (rcs : List ReplicationClass)
    (scs : List StorageClass) (pvcs vr vs : List PVC)
    (hnodup : ((vrg.status.protectedPVCs.getD []).map ProtectedPVC.name).Nodup)
    (h : updatePVCList vrg (Except.ok rcs) scs (Except.ok pvcs) = Except.ok (vr, vs)) :
    (∀ q, ¬(q ∈ vr ∧ q ∈ vs)) ∧
    (∀ q, ((vr ++ vs).count q ≤ pvcs.count q)) ∧
    (∀ q ∈ pvcs, q ∉ vr → q ∉ vs →
      vrg.deletionTimestampSet = true ∧
        ∀ pp ∈ vrg.status.protectedPVCs.getD [], pp.name ≠ q.name) := by
  by_cases hd : vrg.volSyncDisabled = true
  · simp only [updatePVCList, hd, if_true, Except.ok.injEq, Prod.mk.injEq] at h
    rcases h with ⟨rfl, rfl⟩
    refine ⟨by simp, by simp, ?_⟩
    intro q hq hvr _
    exact absurd hq hvr
  · simp only [updatePVCList, hd, if_false, Bool.false_eq_true] at h
    by_cases hdel : vrg.deletionTimestampSet = true
    · simp only [updatePVCListForAll, hdel, if_true, Except.ok.injEq] at h
      rw [separatePVCsUsingVRGStatus_eq_filter _ _ hnodup, Prod.mk.injEq] at h
      rcases h with ⟨hvr, hvs⟩
      subst hvr
      subst hvs
      refine ⟨?_, ?_, ?_⟩
      · rintro q ⟨h1, h2⟩
        exact pvcRecordFlag_not_both _ q
          ⟨(List.mem_filter.mp h1).2, (List.mem_filter.mp h2).2⟩
      · intro q
        exact count_filter_append_le pvcs _ _ (fun a => pvcRecordFlag_not_both _ a) q
      · intro q hq h1 h2
        refine ⟨hdel, ?_⟩
        have hf : ¬(pvcRecordFlag (vrg.status.protectedPVCs.getD []) q false = true) :=
          fun hh => h1 (List.mem_filter.mpr ⟨hq, hh⟩)
        have ht : ¬(pvcRecordFlag (vrg.status.protectedPVCs.getD []) q true = true) :=
          fun hh => h2 (List.mem_filter.mpr ⟨hq, hh⟩)
        intro pp hpp hname
        cases hfind : (vrg.status.protectedPVCs.getD []).find? (fun r => r.name = q.name) with
        | none =>
            have := List.find?_eq_none.mp hfind pp hpp
            simp only [decide_eq_true_eq] at this
            exact this hname
        | some pp' =>
            cases hb : pp'.protectedByVolSync with
            | false => exact hf (by simp [pvcRecordFlag, hfind, hb])
            | true => exact ht (by simp [pvcRecordFlag, hfind, hb])
    · have hdel' : vrg.deletionTimestampSet = false := by simpa using hdel
      simp only [updatePVCListForAll, hdel', Bool.false_eq_true, if_false] at h
      by_cases hlen : rcs.length = 0
      · simp only [hlen, if_true, Except.ok.injEq, Prod.mk.injEq] at h
        rcases h with ⟨hvr, hvs⟩
        subst hvr
        subst hvs
        refine ⟨by simp, by simp, ?_⟩
        intro q hq _ hvs
        exact absurd hq hvs
      · rw [if_neg hlen] at h
        rcases separatePVCsUsingStorageClassProvisioner_ok scs rcs pvcs vr vs h with ⟨hvr, hvs⟩
        subst hvr
        subst hvs
        refine ⟨?_, ?_, ?_⟩
        · rintro q ⟨h1, h2⟩
          have f1 := (List.mem_filter.mp h1).2
          have f2 := (List.mem_filter.mp h2).2
          rw [f1] at f2
          exact absurd f2 (by simp)
        · intro q
          refine count_filter_append_le pvcs _ _ (fun a => ?_) q
          rintro ⟨h1, h2⟩
          rw [h1] at h2
          exact absurd h2 (by simp)
        · intro q hq h1 h2
          by_cases hm : pvcProvisionerMatch scs rcs q = true
          · exact absurd (List.mem_filter.mpr ⟨hq, hm⟩) h1
          · exact absurd (List.mem_filter.mpr ⟨hq, by simp [hm]⟩) h2

/-- Witness for the amended C6: on the claim's concrete deletion scenario the
output lists are `([A], [B])` and claim A is not in both. -/
theorem claimC6_witness :
    ((vrgDeletingAB.status.protectedPVCs.getD []).map ProtectedPVC.name).Nodup ∧
    updatePVCList vrgDeletingAB (Except.ok []) [] (Except.ok [pvcA, pvcB, pvcC]) =
      Except.ok ([pvcA], [pvcB]) ∧
    ¬(pvcA ∈ ([pvcA] : List PVC) ∧ pvcA ∈ ([pvcB] : List PVC)) :=
  ⟨by decide, rfl,
    (claimC6_classification_invariants vrgDeletingAB [] [] [pvcA, pvcB, pvcC] [pvcA] [pvcB]
        (by decide) rfl).1 pvcA⟩

/-- The requeue criterion as the claim words it, for comparison with the
code's `areRequiredConditionsReady`: the three required condition types
present with status True and `observedGeneration` equal to the VRG's current
generation. -/
def requiredConditionsReadyAtGeneration (conditions : List Condition) (generation : Nat) :
    Bool :=
  (match findCondition conditions VRGConditionTypeDataReady with
   | none => false
   | some c => c.status = CondStatus.ctrue ∧ c.observedGeneration = generation) &&
  (match findCondition conditions VRGConditionTypeDataProtected with
   | none => false
   | some c => c.status = CondStatus.ctrue ∧ c.observedGeneration = generation) &&
  (match findCondition conditions VRGConditionTypeClusterDataProtected with
   | none => false
   | some c => c.status = CondStatus.ctrue ∧ c.observedGeneration = generation)

/-- A status whose three required conditions are True but were observed at
generation 0, held by a VRG now at generation 1. -/
def staleCond : String → Condition := fun t =>
  { condType := t, status := CondStatus.ctrue, reason := "Ready", message := "",
    observedGeneration := 0 }

def vrgStale : VRG :=
  { baseVRG with
      generation := 1
      status := { baseStatus with conditions :=
        [staleCond VRGConditionTypeDataReady, staleCond VRGConditionTypeDataProtected,
          staleCond VRGConditionTypeClusterDataProtected] } }

/-- C4 counterexample: with all three required conditions True but observed
at a stale generation, `updateVRGStatus` returns requeue = false although the
claim (all three True at the current generation) does not hold — the code
never consults `observedGeneration`. -/
theorem claimC4_counterexample :
    (updateVRGStatus false aggNone [] 7 none vrgStale vrgStale.status).requeueRequested =
      false ∧
    requiredConditionsReadyAtGeneration
        (updateVRGStatus false aggNone [] 7 none vrgStale vrgStale.status).vrg.status.conditions
        (updateVRGStatus false aggNone [] 7 none vrgStale vrgStale.status).vrg.generation =
      false :=
  ⟨by decide, by decide⟩

/-- C4 (amended): the requeue signal of `updateVRGStatus` is true when a
status write was attempted and failed; otherwise it is false exactly when the
DataReady, DataProtected and ClusterDataProtected conditions are all present
with status True — with no requirement on their observedGeneration. -/
theorem claimC4_requeue_signal (u : Bool) (agg : AggEnv) (vrp : List PVC) (now : Nat)
    (e : Option String) (vrg : VRG) (saved : VRGStatus) :
    (updateVRGStatus u agg vrp now e vrg saved).requeueRequested =
      (((updateVRGStatus u agg vrp now e vrg saved).statusWriteAttempted && e.isSome) ||
        !areRequiredConditionsReady
          (updateVRGStatus u agg vrp now e vrg saved).vrg.status.conditions) := by
  by_cases h : computeDesiredStatus u agg vrp vrg = saved
  · simp [updateVRGStatus, h]
  · cases e <;> simp [updateVRGStatus, h]

/-- C7: a VRG whose spec replication state is neither Primary nor Secondary
takes the terminal invalid-state path: a warning event is recorded, a data
error condition is set, and the returned result carries no RequeueAfter; when
the status write succeeds the result requests no requeue at all. -/
theorem claimC7_invalid_state_is_terminal (env : Env) (vrg : VRG) (saved : VRGStatus)
    (h1 : vrg.replicationState ≠ ReplicationPrimary)
    (h2 : vrg.replicationState ≠ ReplicationSecondary) :
    (processVRG env vrg saved).path = ProcPath.invalidState ∧
    (processVRG env vrg saved).events = [eventReasonValidationFailed] ∧
    (processVRG env vrg saved).result.requeueAfterSeconds = 0 ∧
    findCondition (processVRG env vrg saved).vrg.status.conditions VRGConditionTypeDataReady =
      some { condType := VRGConditionTypeDataReady, status := CondStatus.cfalse,
             reason := VRGConditionReasonError,
             message := "VolumeReplicationGroup state is invalid",
             observedGeneration := vrg.generation } ∧
    (env.statusUpdateErr = none →
      (processVRG env vrg saved).result = { requeue := false, requeueAfterSeconds := 0 }) := by
  have hval : validateVRGState (initializeStatus vrg) =
      some "invalid or unknown replication state detected" := by
    unfold validateVRGState
    rw [(initializeStatus_fields vrg).2.2.2.1, if_pos ⟨h1, h2⟩]
  have hproc : processVRG env vrg saved =
      terminalValidationPath env (initializeStatus vrg) saved ProcPath.invalidState
        "VolumeReplicationGroup state is invalid" := by
    simp only [processVRG, hval]
  rw [hproc]
  obtain ⟨p1, p2, p3, _, p5, p6⟩ := terminalValidationPath_spec env (initializeStatus vrg)
    saved ProcPath.invalidState "VolumeReplicationGroup state is invalid"
  rw [(initializeStatus_fields vrg).1] at p5
  exact ⟨p1, p2, p3, p5, p6⟩

/-- Witness for C7: a concrete VRG with replication state "bogus" and a
succeeding status write yields the invalid-state path and the empty
(no-requeue, no-RequeueAfter) result. -/
theorem claimC7_witness :
    (({ baseVRG with replicationState := "bogus" } : VRG).replicationState ≠
        ReplicationPrimary) ∧
    (processVRG baseEnv { baseVRG with replicationState := "bogus" } baseStatus).path =
      ProcPath.invalidState ∧
    (processVRG baseEnv { baseVRG with replicationState := "bogus" } baseStatus).result =
      { requeue := false, requeueAfterSeconds := 0 } :=
  ⟨by decide,
    (claimC7_invalid_state_is_terminal baseEnv { baseVRG with replicationState := "bogus" }
        baseStatus (by decide) (by decide)).1,
    (claimC7_invalid_state_is_terminal baseEnv { baseVRG with replicationState := "bogus" }
        baseStatus (by decide) (by decide)).2.2.2.2 rfl⟩

/-- C10: a deleting VRG with an invalid replication state (or with neither
sync nor async mode enabled) takes a terminal validation path before
dispatch: `processForDeletion` is never entered and the finalizers are
untouched in that invocation. -/
theorem claimC10_invalid_deleting_vrg_skips_deletion (env : Env) (vrg : VRG)
    (saved : VRGStatus) (hdel : vrg.deletionTimestampSet = true)
    (h : (vrg.replicationState ≠ ReplicationPrimary ∧
            vrg.replicationState ≠ ReplicationSecondary) ∨
         (vrg.syncModeEnabled = false ∧ vrg.asyncModeEnabled = false)) :
    (processVRG env vrg saved).path ≠ ProcPath.deletion ∧
    ((processVRG env vrg saved).path = ProcPath.invalidState ∨
      (processVRG env vrg saved).path = ProcPath.invalidMode) ∧
    (processVRG env vrg saved).vrg.finalizers = vrg.finalizers := by
  cases hs : validateVRGState (initializeStatus vrg) with
  | some msg =>
      have hproc : processVRG env vrg saved =
          terminalValidationPath env (initializeStatus vrg) saved ProcPath.invalidState
            "VolumeReplicationGroup state is invalid" := by
        simp only [processVRG, hs]
      rw [hproc]
      obtain ⟨p1, _, _, p4, _, _⟩ := terminalValidationPath_spec env (initializeStatus vrg)
        saved ProcPath.invalidState "VolumeReplicationGroup state is invalid"
      rw [(initializeStatus_fields vrg).2.2.1] at p4
      refine ⟨?_, Or.inl p1, p4⟩
      rw [p1]
      simp
  | none =>
      rcases h with ⟨ha, hb⟩ | ⟨hsync, hasync⟩
      · exfalso
        unfold validateVRGState at hs
        rw [(initializeStatus_fields vrg).2.2.2.1, if_pos ⟨ha, hb⟩] at hs
        exact Option.noConfusion hs
      · have hmode : validateVRGMode (initializeStatus vrg) =
            some "neither of sync or async mode is enabled" := by
          unfold validateVRGMode
          rw [(initializeStatus_fields vrg).2.2.2.2.2.1, (initializeStatus_fields vrg).2.2.2.2.1,
            hsync, hasync]
          rfl
        have hproc : processVRG env vrg saved =
            terminalValidationPath env (initializeStatus vrg) saved ProcPath.invalidMode
              "VolumeReplicationGroup mode is invalid" := by
          simp only [processVRG, hs, hmode]
        rw [hproc]
        obtain ⟨p1, _, _, p4, _, _⟩ := terminalValidationPath_spec env (initializeStatus vrg)
          saved ProcPath.invalidMode "VolumeReplicationGroup mode is invalid"
        rw [(initializeStatus_fields vrg).2.2.1] at p4
        refine ⟨?_, Or.inr p1, p4⟩
        rw [p1]
        simp

/-- Witness for C10: a concrete deleting VRG with no replication mode enabled
takes the invalid-mode path and keeps its finalizers. -/
theorem claimC10_witness :
    ({ baseVRG with deletionTimestampSet := true, asyncModeEnabled := false } : VRG).deletionTimestampSet = true ∧
    ((processVRG baseEnv { baseVRG with deletionTimestampSet := true, asyncModeEnabled := false }
        baseStatus).path ≠ ProcPath.deletion ∧
      ((processVRG baseEnv { baseVRG with deletionTimestampSet := true, asyncModeEnabled := false }
          baseStatus).path = ProcPath.invalidState ∨
        (processVRG baseEnv { baseVRG with deletionTimestampSet := true, asyncModeEnabled := false }
            baseStatus).path = ProcPath.invalidMode) ∧
      (processVRG baseEnv { baseVRG with deletionTimestampSet := true, asyncModeEnabled := false }
          baseStatus).vrg.finalizers =
        ({ baseVRG with deletionTimestampSet := true, asyncModeEnabled := false } : VRG).finalizers) :=
  ⟨rfl,
    claimC10_invalid_deleting_vrg_skips_deletion baseEnv
      { baseVRG with deletionTimestampSet := true, asyncModeEnabled := false } baseStatus rfl
      (Or.inr ⟨rfl, rfl⟩)⟩

theorem updateStatusState_fixpoint (rs : String) (st Z : VRGStatus)
    (hc : Z.conditions = st.conditions)
    (hs : Z.state = (updateStatusState rs st).state) :
    updateStatusState rs Z = Z := by
  unfold updateStatusState
  rw [hc]
  unfold updateStatusState at hs
  cases hf : findCondition st.conditions VRGConditionTypeDataReady with
  | none => rfl
  | some dr =>
      rw [hf] at hs
      dsimp only at hs ⊢
      split_ifs at hs ⊢ <;> first | rfl | (dsimp only at hs; rw [← hs, ← hc])

theorem computeDesiredStatus_of_status_set (u : Bool) (agg : AggEnv) (vrp : List PVC)
    (vrg : VRG) (S1 : VRGStatus)
    (hconds : (if u then updateVRGConditions agg vrp S1.conditions else S1.conditions) =
      S1.conditions)
    (hfix : updateStatusState vrg.replicationState S1 = S1)
    (hgen : S1.observedGeneration = vrg.generation) :
    computeDesiredStatus u agg vrp { vrg with status := S1 } = S1 := by
  unfold computeDesiredStatus
  dsimp only
  rw [hconds]
  rw [show ({ S1 with conditions := S1.conditions } : VRGStatus) = S1 from rfl]
  rw [hfix, ← hgen]

/-- C8: `updateVRGStatus` compares the computed status against the snapshot
saved at reconcile start by structural equality; when they are equal it
attempts no status write and stamps no new LastUpdateTime yet returns the
same requeue signal as it would had it written; consequently, under stable
aggregation oracles, a second reconcile pass starting from the status the
first pass left behind attempts no status write. -/
theorem claimC8_status_write_skipped_when_unchanged (u : Bool) (agg : AggEnv)
    (vrp : List PVC) (now now2 : Nat) (e2 : Option String) (vrg : VRG) (saved : VRGStatus)
    (hstab : updateVRGConditions agg vrp
        (updateVRGStatus u agg vrp now none vrg saved).vrg.status.conditions =
      (updateVRGStatus u agg vrp now none vrg saved).vrg.status.conditions) :
    (computeDesiredStatus u agg vrp vrg = saved →
      (updateVRGStatus u agg vrp now none vrg saved).statusWriteAttempted = false ∧
      (updateVRGStatus u agg vrp now none vrg saved).vrg.status.lastUpdateTime =
        saved.lastUpdateTime ∧
      ∀ savedB : VRGStatus,
        (updateVRGStatus u agg vrp now none vrg saved).requeueRequested =
          (updateVRGStatus u agg vrp now none vrg savedB).requeueRequested) ∧
    (updateVRGStatus u agg vrp now2 e2
        (updateVRGStatus u agg vrp now none vrg saved).vrg
        (updateVRGStatus u agg vrp now none vrg saved).vrg.status).statusWriteAttempted =
      false := by
  constructor
  · intro hD
    refine ⟨by simp [updateVRGStatus, hD], by simp [updateVRGStatus, hD], ?_⟩
    intro savedB
    by_cases hB : computeDesiredStatus u agg vrp vrg = savedB
    · have hsb : saved = savedB := hD.symm.trans hB
      subst hsb
      rfl
    · simp [updateVRGStatus, hD, hB]
      split <;> simp
  · by_cases hD : computeDesiredStatus u agg vrp vrg = saved
    · have hr1 : (updateVRGStatus u agg vrp now none vrg saved).vrg =
          { vrg with status := saved } := by
        simp [updateVRGStatus, hD]
      rw [hr1] at hstab ⊢
      have hstab2 : updateVRGConditions agg vrp saved.conditions = saved.conditions := hstab
      have hD2 : computeDesiredStatus u agg vrp { vrg with status := saved } = saved := by
        apply computeDesiredStatus_of_status_set
        · cases u
          · rfl
          · simpa using hstab2
        · apply updateStatusState_fixpoint vrg.replicationState
            { vrg.status with conditions :=
              (if u then updateVRGConditions agg vrp vrg.status.conditions
               else vrg.status.conditions) }
          · rw [← hD]
            exact updateStatusState_conditions _ _
          · rw [← hD]
            rfl
        · rw [← hD]
          rfl
      simp [updateVRGStatus, hD2]
    · have hr1 : (updateVRGStatus u agg vrp now none vrg saved).vrg =
          { vrg with status :=
            { computeDesiredStatus u agg vrp vrg with lastUpdateTime := now } } := by
        simp [updateVRGStatus, hD]
      rw [hr1] at hstab ⊢
      have hstab2 : updateVRGConditions agg vrp
          ({ computeDesiredStatus u agg vrp vrg with lastUpdateTime := now } : VRGStatus).conditions =
          ({ computeDesiredStatus u agg vrp vrg with lastUpdateTime := now } : VRGStatus).conditions :=
        hstab
      have hD2 : computeDesiredStatus u agg vrp
          { vrg with status :=
            { computeDesiredStatus u agg vrp vrg with lastUpdateTime := now } } =
          { computeDesiredStatus u agg vrp vrg with lastUpdateTime := now } := by
        apply computeDesiredStatus_of_status_set
        · cases u
          · rfl
          · simpa using hstab2
        · apply updateStatusState_fixpoint vrg.replicationState
            { vrg.status with conditions :=
              (if u then updateVRGConditions agg vrp vrg.status.conditions
               else vrg.status.conditions) }
          · exact updateStatusState_conditions _ _
          · rfl
        · rfl
      simp [updateVRGStatus, hD2]

/-- Witness for C8: starting a concrete VRG's reconcile with the saved status
equal to the computed one skips the write, and the follow-up pass (even with
a write oracle that would fail) also skips the write. -/
theorem claimC8_witness :
    updateVRGConditions aggNone []
        (updateVRGStatus true aggNone [] 5 none vrgStale
          (computeDesiredStatus true aggNone [] vrgStale)).vrg.status.conditions =
      (updateVRGStatus true aggNone [] 5 none vrgStale
        (computeDesiredStatus true aggNone [] vrgStale)).vrg.status.conditions ∧
    (updateVRGStatus true aggNone [] 5 none vrgStale
        (computeDesiredStatus true aggNone [] vrgStale)).statusWriteAttempted = false ∧
    (updateVRGStatus true aggNone [] 6 (some "status write fails")
        (updateVRGStatus true aggNone [] 5 none vrgStale
          (computeDesiredStatus true aggNone [] vrgStale)).vrg
        (updateVRGStatus true aggNone [] 5 none vrgStale
          (computeDesiredStatus true aggNone [] vrgStale)).vrg.status).statusWriteAttempted =
      false :=
  ⟨by decide,
    ((claimC8_status_write_skipped_when_unchanged true aggNone [] 5 6 (some "status write fails")
          vrgStale (computeDesiredStatus true aggNone [] vrgStale) (by decide)).1 rfl).1,
    (claimC8_status_write_skipped_when_unchanged true aggNone [] 5 6 (some "status write fails")
        vrgStale (computeDesiredStatus true aggNone [] vrgStale) (by decide)).2⟩

end Ramen
